import Mathlib

/-!
Shallow embedding of the meeting-room reservation service: models.py
(ReservationDB), repositories.py (ReservationRepository, over an in-memory
list standing for the rows of the reservations table in insertion order)
and services.py (ReservationService).  A Python datetime is modelled by an
absolute instant (an integer) together with a flag recording whether the
value carries tzinfo; timezone-aware datetimes compare by instant.  The
two ambient effects of services.py — datetime.now(timezone.utc) and
uuid.uuid4() — are passed in as explicit arguments.
-/

/-- A Python datetime: val is the absolute instant, tz records whether
tzinfo is present (dt.tzinfo is not None). -/
structure Datetime where
  val : Int
  tz : Bool
deriving Repr, DecidableEq

/-- models.py ReservationDB: one row of the reservations table. -/
structure ReservationDB where
  id : String
  room_id : String
  start_time : Datetime
  end_time : Datetime
deriving Repr, DecidableEq

/-- schemas.py ReservationCreate: the request body of a create call. -/
structure ReservationCreate where
  room_id : String
  start_time : Datetime
  end_time : Datetime
deriving Repr, DecidableEq

/-- fastapi.HTTPException as raised by services.py. -/
structure HTTPException where
  status_code : Nat
  detail : String
deriving Repr, DecidableEq

/-- The reservations table: the db Session state is the list of rows in
insertion order. -/
abbrev Store := List ReservationDB

namespace ReservationRepository

/-- repositories.py ReservationRepository.create: db.add of the new row,
commit, and return the row. -/
def create (store : Store) (reservation_data : ReservationDB) : Store × ReservationDB :=
  (store ++ [reservation_data], reservation_data)

/-- repositories.py ReservationRepository.find_by_id: first row whose id
equals the argument. -/
def find_by_id (store : Store) (reservation_id : String) : Option ReservationDB :=
  store.find? (fun r => r.id == reservation_id)

/-- repositories.py ReservationRepository.delete: db.delete removes the row
with the given record's primary key. -/
def delete (store : Store) (reservation : ReservationDB) : Store :=
  store.eraseP (fun r => r.id == reservation.id)

/-- repositories.py ReservationRepository.find_by_room_id: the rows of the
room, ordered ascending by start_time (order_by start_time). -/
def find_by_room_id (store : Store) (room_id : String) : List ReservationDB :=
  List.insertionSort (fun a b => a.start_time.val ≤ b.start_time.val)
    (store.filter (fun r => r.room_id == room_id))

/-- repositories.py ReservationRepository.find_overlapping: first row of
the room with start_time < end_time and end_time > start_time. -/
def find_overlapping (store : Store) (room_id : String) (start_time end_time : Datetime) :
    Option ReservationDB :=
  store.find? (fun r =>
    r.room_id == room_id &&
    decide (r.start_time.val < end_time.val) &&
    decide (r.end_time.val > start_time.val))

end ReservationRepository

namespace ReservationService

/-- services.py ReservationService._validate_timezone_aware: the
HTTPException raised, if any (dt.tzinfo is None). -/
def _validate_timezone_aware (dt : Datetime) (field_name : String) : Option HTTPException :=
  if dt.tz = false then
    some ⟨400, field_name ++ " must be timezone-aware (UTC)"⟩
  else
    none

/-- services.py ReservationService._validate_time_range: the HTTPException
raised, if any (start_time >= end_time). -/
def _validate_time_range (start_time end_time : Datetime) : Option HTTPException :=
  if start_time.val ≥ end_time.val then
    some ⟨400, "Start time must be before end time"⟩
  else
    none

/-- services.py ReservationService._validate_not_in_past: the
HTTPException raised, if any (start_time < now), where now is the value of
datetime.now(timezone.utc). -/
def _validate_not_in_past (now : Int) (start_time : Datetime) : Option HTTPException :=
  if start_time.val < now then
    some ⟨400, "Reservations cannot be made in the past"⟩
  else
    none

/-- services.py ReservationService._check_overlap: the HTTPException
raised, if any (repository.find_overlapping returned a row). -/
def _check_overlap (store : Store) (room_id : String) (start_time end_time : Datetime) :
    Option HTTPException :=
  match ReservationRepository.find_overlapping store room_id start_time end_time with
  | some _ => some ⟨400, "Reservation overlaps with an existing one"⟩
  | none => none

/-- services.py ReservationService.create_reservation: the four validators
and the overlap check in source order, each raise short-circuiting with
the store untouched; on success the row with the freshly generated uuid
(new_id) is inserted.  Returns the response or exception, and the store
after the call. -/
def create_reservation (now : Int) (new_id : String) (store : Store)
    (data : ReservationCreate) : Except HTTPException ReservationDB × Store :=
  match _validate_timezone_aware data.start_time "start_time" with
  | some ex => (.error ex, store)
  | none =>
  match _validate_timezone_aware data.end_time "end_time" with
  | some ex => (.error ex, store)
  | none =>
  match _validate_time_range data.start_time data.end_time with
  | some ex => (.error ex, store)
  | none =>
  match _validate_not_in_past now data.start_time with
  | some ex => (.error ex, store)
  | none =>
  match _check_overlap store data.room_id data.start_time data.end_time with
  | some ex => (.error ex, store)
  | none =>
    let reservation_data : ReservationDB :=
      ⟨new_id, data.room_id, data.start_time, data.end_time⟩
    let created := ReservationRepository.create store reservation_data
    (.ok created.2, created.1)

/-- services.py ReservationService.cancel_reservation: find_by_id, raise
404 when absent, otherwise delete and return the confirmation message. -/
def cancel_reservation (store : Store) (reservation_id : String) :
    Except HTTPException String × Store :=
  match ReservationRepository.find_by_id store reservation_id with
  | none => (.error ⟨404, "Reservation not found"⟩, store)
  | some reservation =>
    (.ok "Reservation canceled", ReservationRepository.delete store reservation)

/-- services.py ReservationService.get_reservations_for_room. -/
def get_reservations_for_room (store : Store) (room_id : String) : List ReservationDB :=
  ReservationRepository.find_by_room_id store room_id

end ReservationService

namespace ReservationService

/-- The admission prefix of create_reservation as executed before any
insert: the four validators and the overlap check in source order, and the
exception the first failing one raises, if any. -/
def create_check (now : Int) (store : Store) (data : ReservationCreate) :
    Option HTTPException :=
  match _validate_timezone_aware data.start_time "start_time" with
  | some ex => some ex
  | none =>
  match _validate_timezone_aware data.end_time "end_time" with
  | some ex => some ex
  | none =>
  match _validate_time_range data.start_time data.end_time with
  | some ex => some ex
  | none =>
  match _validate_not_in_past now data.start_time with
  | some ex => some ex
  | none =>
    _check_overlap store data.room_id data.start_time data.end_time

/-- The insert suffix of create_reservation: repository.create of the row
built from the request and the freshly generated uuid. -/
def create_insert (new_id : String) (store : Store) (data : ReservationCreate) : Store :=
  (ReservationRepository.create store
    ⟨new_id, data.room_id, data.start_time, data.end_time⟩).1

/-- Two in-flight create requests interleaved as check1, check2, insert1,
insert2: both overlap checks read the store before either insert commits.
The code holds no per-room lock and opens no serializable transaction
around check-then-insert, so this interleaving is permitted under
concurrent requests.  Returns whether each request succeeded, and the
final store. -/
def interleaved_create_pair (now : Int) (id1 id2 : String) (store : Store)
    (d1 d2 : ReservationCreate) : (Bool × Bool) × Store :=
  let c1 := create_check now store d1
  let c2 := create_check now store d2
  let store1 := if c1.isNone then create_insert id1 store d1 else store
  let store2 := if c2.isNone then create_insert id2 store1 d2 else store1
  ((c1.isNone, c2.isNone), store2)

end ReservationService

/-- Two reservation rows overlap when they are for the same room and their
half-open time ranges intersect. -/
def RowsOverlap (a b : ReservationDB) : Prop :=
  a.room_id = b.room_id ∧
  a.start_time.val < b.end_time.val ∧ b.start_time.val < a.end_time.val

instance : DecidablePred fun p : ReservationDB × ReservationDB => RowsOverlap p.1 p.2 :=
  fun _ => by unfold RowsOverlap; infer_instance

/-- The store invariant of the spec: every stored reservation has
start_time < end_time, and no two stored reservations of the same room
have intersecting half-open ranges. -/
def StoreInv (store : Store) : Prop :=
  (∀ r ∈ store, r.start_time.val < r.end_time.val) ∧
  store.Pairwise (fun a b => ¬RowsOverlap a b)

/-- The timezone invariant of the spec: every stored reservation's
start_time and end_time carry tzinfo. -/
def TZInv (store : Store) : Prop :=
  ∀ r ∈ store, r.start_time.tz = true ∧ r.end_time.tz = true

/-- The stores reachable by sequential execution of the three service
operations from the empty store.  Listing a room reads the store without
changing it, so its constructor leaves the state alone. -/
inductive Reachable : Store → Prop where
  | empty : Reachable []
  | create (now : Int) (new_id : String) (data : ReservationCreate) {store : Store}
      (h : Reachable store) :
      Reachable (ReservationService.create_reservation now new_id store data).2
  | cancel (reservation_id : String) {store : Store} (h : Reachable store) :
      Reachable (ReservationService.cancel_reservation store reservation_id).2
  | list (room_id : String) {store : Store} (h : Reachable store) : Reachable store

namespace ReservationService

open ReservationRepository

theorem find_overlapping_eq_none_iff (store : Store) (room_id : String) (s e : Datetime) :
    find_overlapping store room_id s e = none ↔
      ∀ r ∈ store,
        ¬(r.room_id = room_id ∧ r.start_time.val < e.val ∧ s.val < r.end_time.val) := by
  simp [find_overlapping, List.find?_eq_none]

theorem find_overlapping_isSome_iff (store : Store) (room_id : String) (s e : Datetime) :
    (find_overlapping store room_id s e).isSome = true ↔
      ∃ r ∈ store,
        r.room_id = room_id ∧ r.start_time.val < e.val ∧ s.val < r.end_time.val := by
  simp [find_overlapping, List.find?_isSome, and_assoc]

theorem _validate_timezone_aware_eq_none_iff (dt : Datetime) (field_name : String) :
    _validate_timezone_aware dt field_name = none ↔ dt.tz = true := by
  simp [_validate_timezone_aware]

theorem _validate_time_range_eq_none_iff (s e : Datetime) :
    _validate_time_range s e = none ↔ s.val < e.val := by
  simp [_validate_time_range]

theorem _validate_not_in_past_eq_none_iff (now : Int) (s : Datetime) :
    _validate_not_in_past now s = none ↔ now ≤ s.val := by
  simp [_validate_not_in_past]

theorem _check_overlap_eq_none_iff (store : Store) (room_id : String) (s e : Datetime) :
    _check_overlap store room_id s e = none ↔
      ∀ r ∈ store,
        ¬(r.room_id = room_id ∧ r.start_time.val < e.val ∧ s.val < r.end_time.val) := by
  rw [← find_overlapping_eq_none_iff]
  unfold _check_overlap
  cases ReservationRepository.find_overlapping store room_id s e <;> simp

theorem create_reservation_success (now : Int) (new_id : String) (store : Store)
    (data : ReservationCreate)
    (h1 : data.start_time.tz = true) (h2 : data.end_time.tz = true)
    (h3 : data.start_time.val < data.end_time.val)
    (h4 : now ≤ data.start_time.val)
    (h5 : ∀ r ∈ store,
      ¬(r.room_id = data.room_id ∧ r.start_time.val < data.end_time.val ∧
        data.start_time.val < r.end_time.val)) :
    create_reservation now new_id store data =
      (.ok ⟨new_id, data.room_id, data.start_time, data.end_time⟩,
       store ++ [⟨new_id, data.room_id, data.start_time, data.end_time⟩]) := by
  have hov : ReservationRepository.find_overlapping store data.room_id
      data.start_time data.end_time = none :=
    (find_overlapping_eq_none_iff store data.room_id data.start_time data.end_time).mpr h5
  simp [create_reservation, _validate_timezone_aware, _validate_time_range,
    _validate_not_in_past, _check_overlap, h1, h2, not_lt.mpr h4, not_le.mpr h3, hov,
    ReservationRepository.create]

theorem create_reservation_cases (now : Int) (new_id : String) (store : Store)
    (data : ReservationCreate) :
    (∃ ex, create_reservation now new_id store data = (.error ex, store)) ∨
    (create_reservation now new_id store data =
       (.ok ⟨new_id, data.room_id, data.start_time, data.end_time⟩,
        store ++ [⟨new_id, data.room_id, data.start_time, data.end_time⟩]) ∧
     data.start_time.tz = true ∧ data.end_time.tz = true ∧
     data.start_time.val < data.end_time.val ∧ now ≤ data.start_time.val ∧
     ∀ r ∈ store,
       ¬(r.room_id = data.room_id ∧ r.start_time.val < data.end_time.val ∧
         data.start_time.val < r.end_time.val)) := by
  unfold create_reservation
  split
  · exact Or.inl ⟨_, rfl⟩
  next h1 =>
  split
  · exact Or.inl ⟨_, rfl⟩
  next h2 =>
  split
  · exact Or.inl ⟨_, rfl⟩
  next h3 =>
  split
  · exact Or.inl ⟨_, rfl⟩
  next h4 =>
  split
  · exact Or.inl ⟨_, rfl⟩
  next h5 =>
  refine Or.inr ⟨rfl, ?_, ?_, ?_, ?_, ?_⟩
  · exact (_validate_timezone_aware_eq_none_iff data.start_time "start_time").mp h1
  · exact (_validate_timezone_aware_eq_none_iff data.end_time "end_time").mp h2
  · exact (_validate_time_range_eq_none_iff data.start_time data.end_time).mp h3
  · exact (_validate_not_in_past_eq_none_iff now data.start_time).mp h4
  · exact (_check_overlap_eq_none_iff store data.room_id
      data.start_time data.end_time).mp h5

end ReservationService

namespace ReservationService

theorem find_by_id_eq_none_iff (store : Store) (reservation_id : String) :
    ReservationRepository.find_by_id store reservation_id = none ↔
      ∀ r ∈ store, r.id ≠ reservation_id := by
  simp [ReservationRepository.find_by_id, List.find?_eq_none]

theorem find_by_id_eq_some (store : Store) (reservation_id : String) (r : ReservationDB)
    (h : ReservationRepository.find_by_id store reservation_id = some r) :
    r ∈ store ∧ r.id = reservation_id := by
  refine ⟨List.mem_of_find?_eq_some h, ?_⟩
  simpa using List.find?_some h

theorem cancel_reservation_cases (store : Store) (reservation_id : String) :
    ((∀ r ∈ store, r.id ≠ reservation_id) ∧
       cancel_reservation store reservation_id =
         (.error ⟨404, "Reservation not found"⟩, store)) ∨
    (∃ l1 r l2, store = l1 ++ r :: l2 ∧ r.id = reservation_id ∧
       (∀ x ∈ l1, x.id ≠ reservation_id) ∧
       cancel_reservation store reservation_id =
         (.ok "Reservation canceled", l1 ++ l2)) := by
  unfold cancel_reservation
  cases hf : ReservationRepository.find_by_id store reservation_id with
  | none =>
    exact Or.inl ⟨(find_by_id_eq_none_iff store reservation_id).mp hf, rfl⟩
  | some r =>
    obtain ⟨hmem, hid⟩ := find_by_id_eq_some store reservation_id r hf
    have hpr : (r.id == r.id) = true := by simp
    obtain ⟨a, l1, l2, hl1, hpa, hsplit, herase⟩ :=
      List.exists_of_eraseP (p := fun x => x.id == r.id) hmem hpr
    refine Or.inr ⟨l1, a, l2, hsplit, ?_, ?_, ?_⟩
    · have : a.id = r.id := by simpa using hpa
      rw [this, hid]
    · intro x hx
      have : ¬(x.id == r.id) = true := hl1 x hx
      simp only [beq_iff_eq] at this
      rw [hid] at this
      exact this
    · simp [ReservationRepository.delete, herase]

theorem reachable_inv {store : Store} (h : Reachable store) :
    StoreInv store ∧ TZInv store := by
  induction h with
  | empty =>
    exact ⟨⟨by simp, List.Pairwise.nil⟩, by simp [TZInv]⟩
  | create now new_id data h ih =>
    rename_i st
    obtain ⟨⟨hse, hpw⟩, htz⟩ := ih
    rcases create_reservation_cases now new_id st data with
      ⟨ex, heq⟩ | ⟨heq, ht1, ht2, hlt, hnow, hov⟩
    · rw [heq]
      exact ⟨⟨hse, hpw⟩, htz⟩
    · rw [heq]
      refine ⟨⟨?_, ?_⟩, ?_⟩
      · intro r hr
        rcases List.mem_append.mp hr with hr | hr
        · exact hse r hr
        · simp only [List.mem_singleton] at hr
          rw [hr]
          exact hlt
      · rw [List.pairwise_append]
        refine ⟨hpw, List.pairwise_singleton _ _, ?_⟩
        intro a ha b hb
        simp only [List.mem_singleton] at hb
        subst hb
        intro hc
        exact hov a ha ⟨hc.1, hc.2.1, hc.2.2⟩
      · intro r hr
        rcases List.mem_append.mp hr with hr | hr
        · exact htz r hr
        · simp only [List.mem_singleton] at hr
          rw [hr]
          exact ⟨ht1, ht2⟩
  | cancel reservation_id h ih =>
    rename_i st
    obtain ⟨⟨hse, hpw⟩, htz⟩ := ih
    rcases cancel_reservation_cases st reservation_id with
      ⟨hne, heq⟩ | ⟨l1, r, l2, hst, hrid, hl1, heq⟩
    · rw [heq]
      exact ⟨⟨hse, hpw⟩, htz⟩
    · rw [heq]
      have hsub : List.Sublist (l1 ++ l2) st := by
        rw [hst]
        exact List.Sublist.append_left (List.sublist_cons_self r l2) l1
      refine ⟨⟨?_, hpw.sublist hsub⟩, ?_⟩
      · intro x hx
        exact hse x (hsub.subset hx)
      · intro x hx
        exact htz x (hsub.subset hx)
  | list room_id h ih =>
    exact ih

end ReservationService

namespace ReservationService

/-- C2: for every timezone-aware input with start_time < end_time, start
not in the past, and no overlapping stored reservation in the same room,
create_reservation succeeds and returns a record whose room_id, start_time
and end_time equal the input and whose id is the freshly generated one. -/
theorem C2_create_success (now : Int) (new_id : String) (store : Store)
    (data : ReservationCreate)
    (h1 : data.start_time.tz = true) (h2 : data.end_time.tz = true)
    (h3 : data.start_time.val < data.end_time.val)
    (h4 : now ≤ data.start_time.val)
    (h5 : ∀ r ∈ store,
      ¬(r.room_id = data.room_id ∧ r.start_time.val < data.end_time.val ∧
        data.start_time.val < r.end_time.val)) :
    (create_reservation now new_id store data).1 =
      .ok ⟨new_id, data.room_id, data.start_time, data.end_time⟩ := by
  rw [create_reservation_success now new_id store data h1 h2 h3 h4 h5]

/-- C2 witness: a concrete valid non-overlapping request succeeds. -/
theorem C2_witness :
    (⟨10, true⟩ : Datetime).tz = true ∧ (⟨20, true⟩ : Datetime).tz = true ∧
    (10 : Int) < 20 ∧ (0 : Int) ≤ 10 ∧
    (create_reservation 0 "id1" [] ⟨"A", ⟨10, true⟩, ⟨20, true⟩⟩).1 =
      .ok ⟨"id1", "A", ⟨10, true⟩, ⟨20, true⟩⟩ :=
  ⟨rfl, rfl, by decide, by decide,
   C2_create_success 0 "id1" [] ⟨"A", ⟨10, true⟩, ⟨20, true⟩⟩ rfl rfl (by decide)
     (by decide) (by simp)⟩

/-- C3: every store reachable by sequential execution of the service
operations from the empty store satisfies the invariant that every stored
reservation has start_time < end_time and that no two stored reservations
of the same room have intersecting half-open ranges. -/
theorem C3_store_invariant (store : Store) (h : Reachable store) : StoreInv store :=
  (reachable_inv h).1

/-- C3 witness: the store after one concrete successful create is
reachable and satisfies the invariant. -/
theorem C3_witness :
    Reachable ((create_reservation 0 "id1" [] ⟨"A", ⟨10, true⟩, ⟨20, true⟩⟩).2) ∧
    StoreInv ((create_reservation 0 "id1" [] ⟨"A", ⟨10, true⟩, ⟨20, true⟩⟩).2) :=
  have hr : Reachable ((create_reservation 0 "id1" []
      ⟨"A", ⟨10, true⟩, ⟨20, true⟩⟩).2) :=
    Reachable.create 0 "id1" ⟨"A", ⟨10, true⟩, ⟨20, true⟩⟩ Reachable.empty
  ⟨hr, C3_store_invariant _ hr⟩

/-- C5: create_reservation runs exactly four validation checks in order —
start_time timezone-aware, end_time timezone-aware, start_time < end_time,
start_time not in the past — failing fast with the first violated check's
error: a naive start_time fails with the start_time timezone error
regardless of the other fields, and start_time = end_time fails the range
check. -/
theorem C5_validation_order (now : Int) (new_id : String) (store : Store)
    (data : ReservationCreate) :
    (data.start_time.tz = false →
      (create_reservation now new_id store data).1 =
        .error ⟨400, "start_time must be timezone-aware (UTC)"⟩) ∧
    (data.start_time.tz = true → data.end_time.tz = false →
      (create_reservation now new_id store data).1 =
        .error ⟨400, "end_time must be timezone-aware (UTC)"⟩) ∧
    (data.start_time.tz = true → data.end_time.tz = true →
      data.end_time.val ≤ data.start_time.val →
      (create_reservation now new_id store data).1 =
        .error ⟨400, "Start time must be before end time"⟩) ∧
    (data.start_time.tz = true → data.end_time.tz = true →
      data.start_time.val < data.end_time.val → data.start_time.val < now →
      (create_reservation now new_id store data).1 =
        .error ⟨400, "Reservations cannot be made in the past"⟩) := by
  refine ⟨?_, ?_, ?_, ?_⟩
  · intro h1
    simp [create_reservation, _validate_timezone_aware, h1]
  · intro h1 h2
    simp [create_reservation, _validate_timezone_aware, h1, h2]
  · intro h1 h2 h3
    simp [create_reservation, _validate_timezone_aware, _validate_time_range,
      h1, h2, h3]
  · intro h1 h2 h3 h4
    simp [create_reservation, _validate_timezone_aware, _validate_time_range,
      _validate_not_in_past, h1, h2, not_le.mpr h3, h4]

/-- C5 witness: a naive start_time fails with the start_time timezone
error even though every other field is invalid too. -/
theorem C5_witness :
    (⟨30, false⟩ : Datetime).tz = false ∧
    (create_reservation 50 "id1" [] ⟨"A", ⟨30, false⟩, ⟨20, false⟩⟩).1 =
      .error ⟨400, "start_time must be timezone-aware (UTC)"⟩ :=
  ⟨rfl, (C5_validation_order 50 "id1" [] ⟨"A", ⟨30, false⟩, ⟨20, false⟩⟩).1 rfl⟩

/-- C8: whenever create_reservation fails, the exception is its direct
result and the store is returned unchanged. -/
theorem C8_create_error_leaves_store (now : Int) (new_id : String) (store : Store)
    (data : ReservationCreate) (ex : HTTPException)
    (h : (create_reservation now new_id store data).1 = .error ex) :
    (create_reservation now new_id store data).2 = store := by
  rcases create_reservation_cases now new_id store data with ⟨ex2, heq⟩ | ⟨heq, _⟩
  · rw [heq]
  · rw [heq] at h
    cases h

/-- C8 witness: a concrete overlapping request fails and leaves the
store as it was. -/
theorem C8_witness :
    (create_reservation 0 "id2" [⟨"id1", "A", ⟨10, true⟩, ⟨20, true⟩⟩]
        ⟨"A", ⟨15, true⟩, ⟨30, true⟩⟩).1 =
      .error ⟨400, "Reservation overlaps with an existing one"⟩ ∧
    (create_reservation 0 "id2" [⟨"id1", "A", ⟨10, true⟩, ⟨20, true⟩⟩]
        ⟨"A", ⟨15, true⟩, ⟨30, true⟩⟩).2 =
      [⟨"id1", "A", ⟨10, true⟩, ⟨20, true⟩⟩] :=
  ⟨rfl, C8_create_error_leaves_store 0 "id2" [⟨"id1", "A", ⟨10, true⟩, ⟨20, true⟩⟩]
    ⟨"A", ⟨15, true⟩, ⟨30, true⟩⟩ ⟨400, "Reservation overlaps with an existing one"⟩ rfl⟩

end ReservationService

namespace ReservationService

theorem _check_overlap_isSome_iff (store : Store) (room_id : String) (s e : Datetime) :
    (_check_overlap store room_id s e).isSome = true ↔
      ∃ r ∈ store, r.room_id = room_id ∧
        r.start_time.val < e.val ∧ r.end_time.val > s.val := by
  rw [← find_overlapping_isSome_iff]
  unfold _check_overlap
  cases ReservationRepository.find_overlapping store room_id s e <;> simp

theorem mem_find_by_room_id (store : Store) (room_id : String) (r : ReservationDB) :
    r ∈ ReservationRepository.find_by_room_id store room_id ↔
      r ∈ store ∧ r.room_id = room_id := by
  unfold ReservationRepository.find_by_room_id
  rw [List.Perm.mem_iff (List.perm_insertionSort _ _)]
  simp [List.mem_filter]

/-- C1: the overlap check reports a conflict precisely when some stored
reservation of the same room satisfies start_time < end_time and
end_time > start_time of the proposed range; consequently adjacent
bookings of the ranges T0 to T1 and T1 to T2 in the same room both
succeed. -/
theorem C1_overlap_semantics (store : Store) (room_id : String) (s e : Datetime)
    (now T0 T1 T2 : Int) (room id1 id2 : String)
    (h0 : now ≤ T0) (h1 : T0 < T1) (h2 : T1 < T2) :
    ((_check_overlap store room_id s e).isSome = true ↔
      ∃ r ∈ store, r.room_id = room_id ∧
        r.start_time.val < e.val ∧ r.end_time.val > s.val) ∧
    (create_reservation now id1 [] ⟨room, ⟨T0, true⟩, ⟨T1, true⟩⟩).1.isOk = true ∧
    (create_reservation now id2
        (create_reservation now id1 [] ⟨room, ⟨T0, true⟩, ⟨T1, true⟩⟩).2
        ⟨room, ⟨T1, true⟩, ⟨T2, true⟩⟩).1.isOk = true := by
  have hside : ∀ r ∈ [(⟨id1, room, ⟨T0, true⟩, ⟨T1, true⟩⟩ : ReservationDB)],
      ¬(r.room_id = room ∧ r.start_time.val < T2 ∧ T1 < r.end_time.val) := by
    intro r hr
    simp only [List.mem_singleton] at hr
    subst hr
    rintro ⟨-, -, hlt⟩
    exact lt_irrefl _ hlt
  have hfst := create_reservation_success now id1 [] ⟨room, ⟨T0, true⟩, ⟨T1, true⟩⟩
    rfl rfl h1 h0 (by simp)
  have hsnd := create_reservation_success now id2
    [⟨id1, room, ⟨T0, true⟩, ⟨T1, true⟩⟩] ⟨room, ⟨T1, true⟩, ⟨T2, true⟩⟩
    rfl rfl h2 (le_trans h0 (le_of_lt h1)) hside
  refine ⟨_check_overlap_isSome_iff store room_id s e, ?_, ?_⟩
  · rw [hfst]
    rfl
  · rw [hfst]
    simp only [List.nil_append]
    rw [hsnd]
    rfl

/-- C1 witness: a contained range conflicts, and concrete adjacent
bookings in the same room both succeed. -/
theorem C1_witness :
    (0 : Int) ≤ 10 ∧ (10 : Int) < 20 ∧ (20 : Int) < 30 ∧
    (((_check_overlap [⟨"idx", "A", ⟨10, true⟩, ⟨20, true⟩⟩] "A"
          ⟨12, true⟩ ⟨14, true⟩).isSome = true ↔
        ∃ r ∈ [(⟨"idx", "A", ⟨10, true⟩, ⟨20, true⟩⟩ : ReservationDB)],
          r.room_id = "A" ∧ r.start_time.val < (14 : Int) ∧
            r.end_time.val > (12 : Int)) ∧
      (create_reservation 0 "id1" [] ⟨"A", ⟨10, true⟩, ⟨20, true⟩⟩).1.isOk = true ∧
      (create_reservation 0 "id2"
          (create_reservation 0 "id1" [] ⟨"A", ⟨10, true⟩, ⟨20, true⟩⟩).2
          ⟨"A", ⟨20, true⟩, ⟨30, true⟩⟩).1.isOk = true) :=
  ⟨by decide, by decide, by decide,
   C1_overlap_semantics [⟨"idx", "A", ⟨10, true⟩, ⟨20, true⟩⟩] "A" ⟨12, true⟩ ⟨14, true⟩
     0 10 20 30 "A" "id1" "id2" (by decide) (by decide) (by decide)⟩

theorem create_reservation_eq_check_insert (now : Int) (new_id : String) (store : Store)
    (data : ReservationCreate) :
    create_reservation now new_id store data =
      match create_check now store data with
      | some ex => (.error ex, store)
      | none =>
        (.ok ⟨new_id, data.room_id, data.start_time, data.end_time⟩,
         create_insert new_id store data) := by
  unfold create_reservation create_check create_insert
  cases _validate_timezone_aware data.start_time "start_time" <;>
    cases _validate_timezone_aware data.end_time "end_time" <;>
      cases _validate_time_range data.start_time data.end_time <;>
        cases _validate_not_in_past now data.start_time <;>
          cases _check_overlap store data.room_id data.start_time data.end_time <;>
            rfl

/-- C4, refuted on the code: with two overlapping create requests for the
same room interleaved as check1, check2, insert1, insert2 — an
interleaving nothing in the code forbids, since the check and the insert
are separate store operations with no lock or serializable transaction
around them — both requests succeed and the final store violates the
per-room non-overlap invariant. -/
theorem C4_double_booking_race :
    (interleaved_create_pair 0 "id1" "id2" []
        ⟨"A", ⟨10, true⟩, ⟨20, true⟩⟩ ⟨"A", ⟨15, true⟩, ⟨25, true⟩⟩).1 = (true, true) ∧
    (interleaved_create_pair 0 "id1" "id2" []
        ⟨"A", ⟨10, true⟩, ⟨20, true⟩⟩ ⟨"A", ⟨15, true⟩, ⟨25, true⟩⟩).2 =
      [⟨"id1", "A", ⟨10, true⟩, ⟨20, true⟩⟩, ⟨"id2", "A", ⟨15, true⟩, ⟨25, true⟩⟩] ∧
    RowsOverlap ⟨"id1", "A", ⟨10, true⟩, ⟨20, true⟩⟩
      ⟨"id2", "A", ⟨15, true⟩, ⟨25, true⟩⟩ ∧
    ¬StoreInv [⟨"id1", "A", ⟨10, true⟩, ⟨20, true⟩⟩,
      ⟨"id2", "A", ⟨15, true⟩, ⟨25, true⟩⟩] := by
  refine ⟨rfl, rfl, ⟨rfl, by decide, by decide⟩, ?_⟩
  rintro ⟨-, hpw⟩
  have hno := (List.pairwise_cons.mp hpw).1 _ (List.mem_singleton.mpr rfl)
  exact hno ⟨rfl, by decide, by decide⟩

end ReservationService

instance : IsTotal ReservationDB (fun a b => a.start_time.val ≤ b.start_time.val) :=
  ⟨fun a b => Int.le_total a.start_time.val b.start_time.val⟩

instance : IsTrans ReservationDB (fun a b => a.start_time.val ≤ b.start_time.val) :=
  ⟨fun _ _ _ hab hbc => le_trans hab hbc⟩

namespace ReservationService

/-- C6: listing a room returns exactly the currently stored reservations
of that room (as a permutation of the filter), sorted ascending by
start_time, and after a successful cancel the canceled id never appears in
a subsequent listing (given the stored ids are pairwise distinct, as every
reachable store satisfies). -/
theorem C6_list_for_room (store : Store) (room_id reservation_id : String) :
    List.Perm (get_reservations_for_room store room_id)
      (store.filter (fun r => r.room_id == room_id)) ∧
    List.Sorted (fun a b : ReservationDB => a.start_time.val ≤ b.start_time.val)
      (get_reservations_for_room store room_id) ∧
    (store.Pairwise (fun a b => a.id ≠ b.id) →
      (cancel_reservation store reservation_id).1 = .ok "Reservation canceled" →
      ∀ r ∈ get_reservations_for_room
          (cancel_reservation store reservation_id).2 room_id,
        r.id ≠ reservation_id) := by
  refine ⟨List.perm_insertionSort _ _, List.sorted_insertionSort _ _, ?_⟩
  intro hids hok r hr
  rcases cancel_reservation_cases store reservation_id with
    ⟨hne, heq⟩ | ⟨l1, a, l2, hst, haid, hl1, heq⟩
  · rw [heq] at hok
    exact Except.noConfusion hok
  · rw [heq] at hr
    have hmem : r ∈ l1 ++ l2 :=
      ((mem_find_by_room_id (l1 ++ l2) room_id r).mp hr).1
    rw [hst] at hids
    rcases List.mem_append.mp hmem with hmem | hmem
    · exact hl1 r hmem
    · have hpair : List.Pairwise (fun a b : ReservationDB => a.id ≠ b.id) (a :: l2) :=
        (List.pairwise_append.mp hids).2.1
      have hane : a.id ≠ r.id := (List.pairwise_cons.mp hpair).1 r hmem
      exact fun hEq => hane (haid.trans hEq.symm)

/-- C6 witness: after canceling one of two stored reservations, listing
the room yields no entry with the canceled id. -/
theorem C6_witness :
    List.Pairwise (fun a b : ReservationDB => a.id ≠ b.id)
      [⟨"b", "A", ⟨30, true⟩, ⟨40, true⟩⟩, ⟨"a", "A", ⟨10, true⟩, ⟨20, true⟩⟩] ∧
    (cancel_reservation
        [⟨"b", "A", ⟨30, true⟩, ⟨40, true⟩⟩, ⟨"a", "A", ⟨10, true⟩, ⟨20, true⟩⟩]
        "a").1 = .ok "Reservation canceled" ∧
    ∀ r ∈ get_reservations_for_room
        (cancel_reservation
          [⟨"b", "A", ⟨30, true⟩, ⟨40, true⟩⟩, ⟨"a", "A", ⟨10, true⟩, ⟨20, true⟩⟩]
          "a").2 "A",
      r.id ≠ "a" :=
  ⟨by decide, rfl,
   (C6_list_for_room
      [⟨"b", "A", ⟨30, true⟩, ⟨40, true⟩⟩, ⟨"a", "A", ⟨10, true⟩, ⟨20, true⟩⟩]
      "A" "a").2.2 (by decide) rfl⟩

/-- C7: cancel fails with the 404 error precisely when no stored
reservation has the id; in that case the store is unchanged; otherwise
exactly the first stored reservation with that id is removed and every
other row is kept in place. -/
theorem C7_cancel_semantics (store : Store) (reservation_id : String) :
    ((cancel_reservation store reservation_id).1 =
        .error ⟨404, "Reservation not found"⟩ ↔ ∀ r ∈ store, r.id ≠ reservation_id) ∧
    ((∀ r ∈ store, r.id ≠ reservation_id) →
      (cancel_reservation store reservation_id).2 = store) ∧
    ((∃ r ∈ store, r.id = reservation_id) →
      ∃ l1 a l2, store = l1 ++ a :: l2 ∧ a.id = reservation_id ∧
        (∀ x ∈ l1, x.id ≠ reservation_id) ∧
        cancel_reservation store reservation_id =
          (.ok "Reservation canceled", l1 ++ l2)) := by
  rcases cancel_reservation_cases store reservation_id with
    ⟨hne, heq⟩ | ⟨l1, a, l2, hst, haid, hl1, heq⟩
  · refine ⟨⟨fun _ => hne, fun _ => by rw [heq]⟩, fun _ => by rw [heq], ?_⟩
    rintro ⟨r, hr, hid⟩
    exact absurd hid (hne r hr)
  · have ha : a ∈ store := by
      rw [hst]
      exact List.mem_append_right l1 (List.mem_cons_self a l2)
    refine ⟨⟨?_, ?_⟩, ?_, ?_⟩
    · rw [heq]
      intro h
      exact Except.noConfusion h
    · intro hall
      exact absurd haid (hall a ha)
    · intro hall
      exact absurd haid (hall a ha)
    · intro _
      exact ⟨l1, a, l2, hst, haid, hl1, heq⟩

/-- C7 witness: canceling an id never created fails with the 404 error. -/
theorem C7_witness :
    (∀ r ∈ ([] : Store), r.id ≠ "x") ∧
    (cancel_reservation [] "x").1 = .error ⟨404, "Reservation not found"⟩ :=
  ⟨by simp, (C7_cancel_semantics [] "x").1.mpr (by simp)⟩

/-- C9: in every reachable store, the reservations read back through
find_by_id, find_by_room_id or find_overlapping carry timezone
information on both start_time and end_time. -/
theorem C9_timezone_qualified (store : Store) (h : Reachable store) :
    (∀ reservation_id r,
      ReservationRepository.find_by_id store reservation_id = some r →
        r.start_time.tz = true ∧ r.end_time.tz = true) ∧
    (∀ room_id r, r ∈ ReservationRepository.find_by_room_id store room_id →
        r.start_time.tz = true ∧ r.end_time.tz = true) ∧
    (∀ room_id s e r,
      ReservationRepository.find_overlapping store room_id s e = some r →
        r.start_time.tz = true ∧ r.end_time.tz = true) := by
  have htz := (reachable_inv h).2
  refine ⟨?_, ?_, ?_⟩
  · intro reservation_id r hr
    exact htz r (List.mem_of_find?_eq_some hr)
  · intro room_id r hr
    exact htz r ((mem_find_by_room_id store room_id r).mp hr).1
  · intro room_id s e r hr
    exact htz r (List.mem_of_find?_eq_some hr)

/-- C9 witness: the reads from the store after one concrete successful
create all return timezone-aware rows. -/
theorem C9_witness :
    Reachable ((create_reservation 0 "id1" [] ⟨"A", ⟨10, true⟩, ⟨20, true⟩⟩).2) ∧
    ∀ room_id r,
      r ∈ ReservationRepository.find_by_room_id
          ((create_reservation 0 "id1" [] ⟨"A", ⟨10, true⟩, ⟨20, true⟩⟩).2) room_id →
        r.start_time.tz = true ∧ r.end_time.tz = true :=
  have hr : Reachable ((create_reservation 0 "id1" []
      ⟨"A", ⟨10, true⟩, ⟨20, true⟩⟩).2) :=
    Reachable.create 0 "id1" ⟨"A", ⟨10, true⟩, ⟨20, true⟩⟩ Reachable.empty
  ⟨hr, (C9_timezone_qualified _ hr).2.1⟩

/-- C10: canceling a stored reservation frees its slot — afterwards a
create for the same room with exactly the same range succeeds, provided
the start is still not in the past and no other stored reservation of the
room overlaps the range. -/
theorem C10_cancel_frees_slot (now : Int) (new_id : String) (store : Store)
    (r : ReservationDB)
    (hmem : r ∈ store)
    (hids : store.Pairwise (fun a b => a.id ≠ b.id))
    (ht1 : r.start_time.tz = true) (ht2 : r.end_time.tz = true)
    (hlt : r.start_time.val < r.end_time.val)
    (hnow : now ≤ r.start_time.val)
    (hov : ∀ x ∈ store, x.id ≠ r.id → x.room_id = r.room_id →
      ¬(x.start_time.val < r.end_time.val ∧ r.start_time.val < x.end_time.val)) :
    (cancel_reservation store r.id).1 = .ok "Reservation canceled" ∧
    (create_reservation now new_id (cancel_reservation store r.id).2
        ⟨r.room_id, r.start_time, r.end_time⟩).1 =
      .ok ⟨new_id, r.room_id, r.start_time, r.end_time⟩ := by
  rcases cancel_reservation_cases store r.id with
    ⟨hne, heq⟩ | ⟨l1, a, l2, hst, haid, hl1, heq⟩
  · exact absurd rfl (hne r hmem)
  · have hok : (cancel_reservation store r.id).1 = .ok "Reservation canceled" := by
      rw [heq]
    have hst2 : (cancel_reservation store r.id).2 = l1 ++ l2 := by
      rw [heq]
    have hxid : ∀ x ∈ l1 ++ l2, x.id ≠ r.id := by
      intro x hx
      rw [hst] at hids
      rcases List.mem_append.mp hx with hx | hx
      · exact hl1 x hx
      · have hpair : List.Pairwise (fun a b : ReservationDB => a.id ≠ b.id) (a :: l2) :=
          (List.pairwise_append.mp hids).2.1
        have := (List.pairwise_cons.mp hpair).1 x hx
        exact fun hEq => this (haid.trans hEq.symm)
    have hxmem : ∀ x ∈ l1 ++ l2, x ∈ store := by
      intro x hx
      rw [hst]
      rcases List.mem_append.mp hx with hx | hx
      · exact List.mem_append_left _ hx
      · exact List.mem_append_right _ (List.mem_cons_of_mem a hx)
    have hside : ∀ x ∈ l1 ++ l2,
        ¬(x.room_id = r.room_id ∧ x.start_time.val < r.end_time.val ∧
          r.start_time.val < x.end_time.val) := by
      rintro x hx ⟨hroom, ho1, ho2⟩
      exact hov x (hxmem x hx) (hxid x hx) hroom ⟨ho1, ho2⟩
    have hsucc := create_reservation_success now new_id (l1 ++ l2)
      ⟨r.room_id, r.start_time, r.end_time⟩ ht1 ht2 hlt hnow hside
    refine ⟨hok, ?_⟩
    rw [hst2, hsucc]

/-- C10 witness: canceling the single stored reservation and re-creating
the very same slot succeeds. -/
theorem C10_witness :
    (⟨"id1", "A", ⟨10, true⟩, ⟨20, true⟩⟩ : ReservationDB) ∈
      [(⟨"id1", "A", ⟨10, true⟩, ⟨20, true⟩⟩ : ReservationDB)] ∧
    (cancel_reservation [⟨"id1", "A", ⟨10, true⟩, ⟨20, true⟩⟩] "id1").1 =
      .ok "Reservation canceled" ∧
    (create_reservation 0 "id2"
        (cancel_reservation [⟨"id1", "A", ⟨10, true⟩, ⟨20, true⟩⟩] "id1").2
        ⟨"A", ⟨10, true⟩, ⟨20, true⟩⟩).1 =
      .ok ⟨"id2", "A", ⟨10, true⟩, ⟨20, true⟩⟩ :=
  have h := C10_cancel_frees_slot 0 "id2"
    [⟨"id1", "A", ⟨10, true⟩, ⟨20, true⟩⟩] ⟨"id1", "A", ⟨10, true⟩, ⟨20, true⟩⟩
    (List.mem_singleton.mpr rfl) (List.pairwise_singleton _ _) rfl rfl
    (by decide) (by decide) (by simp)
  ⟨List.mem_singleton.mpr rfl, h.1, h.2⟩

end ReservationService
